import Mathlib

/-!
Verification development for the validate→execute core of the
educational-data-chatbot repository.

The Python sources are embedded shallowly:
- `src/config.py` : `SecurityConfig` (the Policy) with its four frozensets
  and three scalar limits, embedded as a Lean structure with `List String`
  fields (frozenset membership is all the code uses) and the exact default
  contents.
- `src/utils.py` : `format_result_for_display` (the Result Classifier) and
  `sanitize_input` (input screening), embedded over an inductive `PyValue`
  mirroring the `isinstance` dispatch of the source, and over executable
  character-list matchers mirroring the source's regular expressions.
- `src/query_processor.py` : `QueryProcessor.process_question` (the
  Orchestrator), embedded as a total function over an `Env` of external
  collaborators (data loading, code generation, validation, execution,
  response generation), each modelled as an `Except`-valued oracle so that
  a collaborator can either return or raise.  The embedding also emits a
  trace of stage events so temporal claims can be stated.
- `code_validator.py` is not among the provided sources; its `validate`
  contract is modelled from the spec (§4.1) and marked as such.
-/

namespace EduChatbot

/-- Embeds `SecurityConfig` from `src/config.py` (a frozen dataclass):
four frozensets of strings and three integer limits.  Frozensets are
embedded as lists; the code only ever tests membership. -/
structure SecurityConfig where
  max_input_length : Nat
  execution_timeout : Nat
  max_memory_mb : Nat
  allowed_operations : List String
  blocked_operations : List String
  blocked_modules : List String
  allowed_variables : List String
deriving Repr, DecidableEq

/-- The default `SecurityConfig()` instance (all field defaults from
`src/config.py` lines 25-174), i.e. `config.security` of the global
`AppConfig`. -/
def securityConfig : SecurityConfig where
  max_input_length := 1000
  execution_timeout := 10
  max_memory_mb := 512
  allowed_operations := [
    "groupby", "agg", "aggregate", "apply", "transform", "pipe",
    "mean", "sum", "count", "std", "var", "min", "max",
    "median", "quantile", "describe", "mode", "sem", "skew", "kurt",
    "filter", "query", "loc", "iloc", "isin", "contains",
    "between", "isna", "notna", "dropna", "fillna", "where", "mask",
    "merge", "join", "concat", "pivot", "pivot_table", "melt",
    "stack", "unstack", "explode", "crosstab",
    "corr", "cov", "value_counts", "unique", "nunique", "duplicated",
    "sort_values", "sort_index", "reset_index", "set_index", "reindex",
    "head", "tail", "sample", "drop_duplicates", "nlargest", "nsmallest",
    "str", "lower", "upper", "strip", "replace", "split",
    "dt", "year", "month", "day", "hour", "minute",
    "astype", "to_numeric", "to_datetime",
    "first", "last", "nth", "size",
    "eq", "ne", "lt", "le", "gt", "ge",
    "abs", "round", "floor", "ceil", "clip",
    "any", "all", "bool",
    "shape", "columns", "index", "values", "dtypes", "info",
    "len", "copy", "rename", "assign",
    "bar", "scatter", "line", "pie", "histogram", "box", "violin",
    "heatmap", "treemap", "sunburst", "funnel", "waterfall", "icicle",
    "scatter_3d", "line_3d", "scatter_matrix", "parallel_coordinates",
    "density_heatmap", "density_contour", "area", "ecdf", "strip",
    "scatter_polar", "line_polar", "bar_polar", "choropleth", "imshow",
    "Figure", "Bar", "Scatter", "Pie", "Histogram", "Box", "Violin",
    "Heatmap", "Contour", "Surface", "Mesh3d", "Indicator", "Gauge",
    "Scatterpolar", "Barpolar", "Scatterternary", "Sankey", "Treemap",
    "Sunburst", "Funnel", "Waterfall", "Candlestick", "Ohlc", "Table",
    "Scattergeo", "Choropleth", "Scattermapbox", "Densitymapbox",
    "Scatter3d", "Line3d", "Isosurface", "Volume", "Cone", "Streamtube",
    "update_layout", "update_traces", "update_xaxes", "update_yaxes",
    "add_trace", "add_annotation", "add_shape", "add_vline", "add_hline",
    "add_vrect", "add_hrect", "set_subplots", "make_subplots",
    "data", "layout", "frames", "to_dict", "to_json",
    "colors", "qualitative", "sequential", "diverging", "cyclical",
    "Set1", "Set2", "Set3", "Pastel", "Pastel1", "Pastel2", "Dark2",
    "Viridis", "Plasma", "Inferno", "Magma", "Cividis", "Blues", "Reds",
    "RdBu", "RdBu_r", "Spectral", "Rainbow", "Jet", "Hot", "Cool",
    "dict", "list", "tuple", "range", "enumerate", "zip", "sorted",
    "format", "f", "tolist", "items", "keys",
    "path", "names", "parents", "ids", "hole", "pull", "textinfo",
    "textposition", "textfont", "insidetextfont", "outsidetextfont",
    "hovertemplate", "hoverinfo", "hoverlabel", "customdata",
    "marker_color", "marker_line", "marker_size", "opacity",
    "orientation", "barmode", "barnorm", "bargap", "bargroupgap",
    "nbinsx", "nbinsy", "histfunc", "histnorm", "cumulative",
    "trendline", "trendline_color_override", "trendline_scope",
    "color_discrete_sequence", "color_discrete_map", "color_continuous_scale",
    "color_continuous_midpoint", "symbol", "symbol_sequence", "symbol_map",
    "facet_row", "facet_col", "facet_col_wrap", "animation_frame",
    "category_orders", "labels", "title", "template", "width", "height",
    "marginal", "marginal_x", "marginal_y", "log_x", "log_y", "range_x", "range_y",
    "render_mode", "hover_name", "hover_data", "text", "error_x", "error_y",
    "base", "pattern_shape", "pattern_shape_sequence", "pattern_shape_map"]
  blocked_operations := [
    "eval", "exec", "compile", "__import__", "execfile",
    "input", "raw_input",
    "open", "file", "read", "write", "remove", "delete",
    "rmdir", "mkdir", "chmod", "chown", "unlink", "rename",
    "listdir", "walk", "glob", "scandir",
    "system", "popen", "call", "run", "spawn", "kill",
    "fork", "wait", "exit", "quit", "abort",
    "socket", "urllib", "requests", "http", "ftp", "smtp",
    "connect", "send", "recv", "bind", "listen",
    "__builtins__", "__globals__", "__locals__", "__dict__",
    "__class__", "__bases__", "__subclasses__", "__getattribute__",
    "__setattr__", "__delattr__", "__code__", "__func__",
    "getattr", "setattr", "delattr", "hasattr", "vars", "dir",
    "globals", "locals", "type", "object",
    "pickle", "marshal", "dill", "shelve", "load", "loads", "dump", "dumps",
    "subprocess", "Popen", "check_output", "check_call",
    "importlib", "__loader__", "__spec__"]
  blocked_modules := [
    "os", "sys", "subprocess", "shutil", "pickle", "marshal",
    "socket", "urllib", "requests", "http", "ftplib", "smtplib",
    "sqlite3", "ctypes", "multiprocessing", "threading", "asyncio",
    "importlib", "builtins", "code", "codeop", "compile",
    "gc", "inspect", "traceback", "linecache", "tempfile",
    "pathlib", "io", "zipfile", "tarfile", "gzip", "bz2"]
  allowed_variables := [
    "df", "pd", "np", "result", "filtered", "grouped", "merged",
    "temp", "data", "subset", "output", "stats", "summary",
    "px", "go", "fig", "figure", "chart", "plot", "trace", "traces",
    "colors", "layout", "annotation", "annotations", "shape", "shapes",
    "corr", "numeric_cols", "courses", "levels", "genders", "row", "col",
    "i", "j", "x", "y", "z", "r", "theta", "label", "labels", "value",
    "avg_score", "top_students", "level", "course", "gender", "score",
    "path", "parent", "parents", "ids", "names", "values", "text",
    "hover_data", "color", "size", "symbol", "opacity", "line",
    "marker", "counts", "totals", "means", "averages", "sums",
    "students_data", "distribution", "metrics", "categories",
    "series", "column", "columns", "rows", "idx", "index",
    "title", "name", "mode", "fill", "showlegend", "legendgroup",
    "make_subplots", "subplot", "axis", "polar", "radialaxis"]

/-- The set-valued (frozenset) fields of a `SecurityConfig`, enumerated:
`allowed_operations`, `blocked_operations`, `blocked_modules`,
`allowed_variables` are all of them. -/
def securityConfigSetFields (c : SecurityConfig) : List (List String) :=
  [c.allowed_operations, c.blocked_operations, c.blocked_modules, c.allowed_variables]

/-- The scalar fields of a `SecurityConfig`, enumerated: `max_input_length`,
`execution_timeout`, `max_memory_mb` are all of them. -/
def securityConfigScalarFields (c : SecurityConfig) : List Nat :=
  [c.max_input_length, c.execution_timeout, c.max_memory_mb]

/-! ## Result classifier (`format_result_for_display`, `src/utils.py` lines 566-610) -/

/-- A pandas DataFrame as the classifier sees it: a rendered header line and
one rendered line per data row (`to_string` output structure).  `head(10)`,
`tail(10)`, `pd.concat` and `len` act on the row list. -/
structure DataFrame where
  header : String
  rows : List String
deriving Repr, DecidableEq

/-- `DataFrame.to_string()`: header line followed by each row line. -/
def DataFrame.to_string (d : DataFrame) : String :=
  String.intercalate "\n" (d.header :: d.rows)

/-- A pandas Series as the classifier sees it: one rendered line per item. -/
structure Series where
  rows : List String
deriving Repr, DecidableEq

/-- `Series.to_string()`: one line per item. -/
def Series.to_string (s : Series) : String :=
  String.intercalate "\n" s.rows

/-- The value space dispatched on by `format_result_for_display`'s
`isinstance` chain: Plotly figure (carrying its layout title text, `None`
for an absent title, and the length of its `data` trace list), DataFrame,
Series, int, float (as a rational), list, tuple, `None`, or anything else
(carried as its `str()` form). -/
inductive PyValue where
  | figure (titleText : Option String) (numTraces : Nat)
  | dataframe (d : DataFrame)
  | series (s : Series)
  | intVal (n : Int)
  | floatVal (q : Rat)
  | listVal (xs : List Int)
  | tupleVal (xs : List Int)
  | noneVal
  | otherVal (str : String)
deriving Repr, DecidableEq

/-- Python's `round(x, 4)`: round to 4 decimal places, ties to even. -/
def pyRound4 (q : Rat) : Rat :=
  let s := q * 10000
  let f : Int := Rat.floor s
  let frac : Rat := s - (f : Rat)
  let k : Int :=
    if frac < 1/2 then f
    else if 1/2 < frac then f + 1
    else if f % 2 = 0 then f else f + 1
  (k : Rat) / 10000

/-- Pad the decimal rendering of a nonnegative integer to 4 digits. -/
def padLeft4 (n : Int) : String :=
  let s := toString n
  if s.length < 4 then String.mk (List.replicate (4 - s.length) '0' ++ s.data)
  else s

/-- Python's `str()` of a float that is an exact multiple of 1/10000:
integer part, a dot, and the fractional digits with trailing zeros
stripped (at least one digit, as Python prints `3.0`). -/
def floatStr (q : Rat) : String :=
  let sgn := if q < 0 then "-" else ""
  let a : Int := |round (q * 10000)|
  let ip := a / 10000
  let fracDigits := String.mk ((padLeft4 (a % 10000)).data.reverse.dropWhile (fun c => c == '0')).reverse
  sgn ++ toString ip ++ "." ++ (if fracDigits = "" then "0" else fracDigits)

/-- Python's `str()` of a list of ints: `[1, 2, 3]`. -/
def pyListStr (xs : List Int) : String :=
  "[" ++ String.intercalate ", " (xs.map toString) ++ "]"

/-- Python's `str()` of a tuple of ints: `(1, 2, 3)`, with `(1,)` for a
singleton. -/
def pyTupleStr (xs : List Int) : String :=
  match xs with
  | [x] => "(" ++ toString x ++ ",)"
  | _ => "(" ++ String.intercalate ", " (xs.map toString) ++ ")"

/-- Embeds `format_result_for_display` from `src/utils.py` (lines 566-610):
maps a raw execution result to `(formatted_text, result_type)`.
- Plotly figure: a short description built from the layout title (falling
  back to `"Visualization"` when the title is absent or empty, matching the
  truthiness test in the source) and the trace count; tag `"plotly_figure"`.
- DataFrame: `> 20` rows shows `pd.concat([head(10), tail(10)])` under a
  `"Showing first 10 and last 10 of N rows:"` header, else all rows; tag
  `"dataframe"`.
- Series: the same truncation with an `"... of N items:"` header; tag
  `"series"`.
- int/float: `str`, floats via `round(·, 4)`; tag `"scalar"`.
- list/tuple: `str(result)`; tag `"list"`.
- anything else: `str(result)`; tag `"other"`. -/
def format_result_for_display : PyValue → String × String
  | .figure titleText numTraces =>
    let title := match titleText with
      | some t => if t = "" then "Visualization" else t
      | none => "Visualization"
    ("📊 " ++ title ++ " (" ++ toString numTraces ++ " data series)", "plotly_figure")
  | .dataframe d =>
    if 20 < d.rows.length then
      let display : DataFrame := ⟨d.header, d.rows.take 10 ++ d.rows.drop (d.rows.length - 10)⟩
      ("Showing first 10 and last 10 of " ++ toString d.rows.length ++ " rows:\n"
        ++ display.to_string, "dataframe")
    else
      (d.to_string, "dataframe")
  | .series s =>
    if 20 < s.rows.length then
      let display : Series := ⟨s.rows.take 10 ++ s.rows.drop (s.rows.length - 10)⟩
      ("Showing first 10 and last 10 of " ++ toString s.rows.length ++ " items:\n"
        ++ display.to_string, "series")
    else
      (s.to_string, "series")
  | .intVal n => (toString n, "scalar")
  | .floatVal q => (floatStr (pyRound4 q), "scalar")
  | .listVal xs => (pyListStr xs, "list")
  | .tupleVal xs => (pyTupleStr xs, "list")
  | .noneVal => ("None", "other")
  | .otherVal s => (s, "other")

/-! ## Input screening (`sanitize_input`, `src/utils.py` lines 613-649) -/

/-- Python regex `\w` (ASCII): letter, digit or underscore. -/
def isWordChar (c : Char) : Bool :=
  c.isAlphanum || c == '_'

/-- Python regex `\s` (ASCII): the whitespace characters. -/
def isPySpace (c : Char) : Bool :=
  c == ' ' || c == '\t' || c == '\n' || c == '\x0d' || c == '\x0b' || c == '\x0c'

/-- Does regex pattern `p` (given as a match-at-position test) match at some
position of the character list (the semantics of `re.search`)? -/
def searchPat (p : List Char → Bool) : List Char → Bool
  | [] => p []
  | c :: cs => p (c :: cs) || searchPat p cs

/-- After `__` and at least one word character, can the run of word
characters be closed by `__`?  (Existence semantics of `\w+__`.) -/
def dunderClose : List Char → Bool
  | '_' :: '_' :: _ => true
  | c :: cs => isWordChar c && dunderClose cs
  | [] => false

/-- Match of regex `__\w+__` at the current position. -/
def dunderAt : List Char → Bool
  | '_' :: '_' :: c :: cs => isWordChar c && dunderClose cs
  | _ => false

/-- Case-insensitive literal match: consumes `lit` (given lowercase) from the
front of the input, returning the rest on success. -/
def litCIAt : List Char → List Char → Option (List Char)
  | [], cs => some cs
  | l :: ls, c :: cs => if c.toLower == l then litCIAt ls cs else none
  | _ :: _, [] => none

/-- After a whitespace run, is the first non-whitespace character a word
character?  (Existence semantics of `\s*\w`.) -/
def firstNonSpaceIsWord : List Char → Bool
  | [] => false
  | c :: cs => if isPySpace c then firstNonSpaceIsWord cs else isWordChar c

/-- Match of regex `import\s+\w+` (case-insensitive) at the current
position. -/
def importPatAt (cs : List Char) : Bool :=
  match litCIAt ("import".data) cs with
  | some (c :: cs') => isPySpace c && firstNonSpaceIsWord cs'
  | _ => false

/-- After a whitespace run, is the first non-whitespace character an opening
parenthesis?  (Existence semantics of `\s*\(`.) -/
def parenAfterSpaces : List Char → Bool
  | [] => false
  | c :: cs => if isPySpace c then parenAfterSpaces cs else c == '('

/-- Match of regex `lit\s*\(` (case-insensitive) at the current position. -/
def callPatAt (lit : String) (cs : List Char) : Bool :=
  match litCIAt lit.data cs with
  | some rest => parenAfterSpaces rest
  | none => false

/-- Match of regex `lit\.\w+` (case-insensitive) at the current position. -/
def dotPatAt (lit : String) (cs : List Char) : Bool :=
  match litCIAt (lit.data ++ ['.']) cs with
  | some (c :: _) => isWordChar c
  | _ => false

/-- Python's `str.strip()`: remove leading and trailing whitespace. -/
def pyStrip (s : String) : String :=
  String.mk (((s.data.dropWhile isPySpace).reverse.dropWhile isPySpace).reverse)

/-- The `dangerous_patterns` scan of `sanitize_input` (`src/utils.py` lines
634-647): does the text match any of `__\w+__`, `import\s+\w+`, `exec\s*\(`,
`eval\s*\(`, `open\s*\(`, `os\.\w+`, `sys\.\w+` (all `re.IGNORECASE`)? -/
def hasDangerousPattern (t : String) : Bool :=
  let cs := t.data
  searchPat dunderAt cs
  || searchPat importPatAt cs
  || searchPat (callPatAt "exec") cs
  || searchPat (callPatAt "eval") cs
  || searchPat (callPatAt "open") cs
  || searchPat (dotPatAt "os") cs
  || searchPat (dotPatAt "sys") cs

/-- Embeds `sanitize_input` from `src/utils.py` (lines 613-649): rejects
input longer than `max_length` with the length message, otherwise strips
surrounding whitespace and rejects it when any injection pattern matches,
otherwise returns the stripped text.  `Except.error` stands for the raised
`ValueError` carrying the same message. -/
def sanitize_input (text : String) (max_length : Nat) : Except String String :=
  if max_length < text.length then
    .error ("Input too long. Maximum " ++ toString max_length ++ " characters allowed.")
  else
    let t := pyStrip text
    if hasDangerousPattern t then
      .error "Input contains potentially unsafe patterns."
    else
      .ok t

/-- Substring test: does `pat` occur contiguously in `s`? -/
def strContainsSub (s pat : String) : Bool :=
  searchPat (fun cs => pat.data.isPrefixOf cs) s.data

/-! ## Validator (modelled from the spec)

`code_validator.py` is not among the provided sources (only its caller
`query_processor.py` is), so the validator is modelled from spec §4.1. -/

/-- Modelled from the spec: the syntax-tree nodes the missing
`code_validator.py` walks (§4.1 step 2) — "an import/module-reference, a
name or attribute access, a function/method call, or a lambda/anonymous-
function literal".  Candidate code is modelled post-parse as the list of
these nodes. -/
inductive AstNode where
  | importOf (module : String)
  | dottedRef (root : String)
  | attrAccess (name : String)
  | callOf (name : String)
  | plainVar (name : String)
  | lambdaLit
deriving Repr, DecidableEq

/-- Modelled from the spec: a successful validation's payload (§3) —
`{ sanitized_code, warnings }`; sanitisation strips only display artifacts
"without altering executable semantics" (§4.1 step 3), so on the post-parse
node model the sanitized code carries the same nodes. -/
structure ValidationResult where
  sanitized_code : List AstNode
  warnings : List String
deriving Repr, DecidableEq

/-- Modelled from the spec: validation failures (§4.1) — a parse failure
(`SyntaxError`) or a denylist match (`SecurityViolation` with its violation
type and the blocked items). -/
inductive ValidationError where
  | syntaxError (msg : String)
  | securityViolation (violation_type : String) (items : List String)
deriving Repr, DecidableEq

/-- Modelled from the spec: the textual identifier a walked node carries
(§4.1 step 2 checks "its textual identifier against Policy"; per the §9
design note the reference validator is a string-membership check over
loosely-typed tree nodes, so every node kind carrying a name is checked the
same way). -/
def nodeIdent : AstNode → Option String
  | .importOf m => some m
  | .dottedRef r => some r
  | .attrAccess a => some a
  | .callOf f => some f
  | .plainVar v => some v
  | .lambdaLit => none

/-- Modelled from the spec: the distinct identifiers among the walked nodes
that match `blocked_modules` — an import, a dotted-path root (§4.1 bullet
1), or, per the §9 string-membership design, any other name referencing a
blocked module; reported under violation type `"import"`, "listing every
distinct module name attempted". -/
def moduleViolations (p : SecurityConfig) (code : List AstNode) : List String :=
  (code.filterMap (fun n => match nodeIdent n with
    | some s => if p.blocked_modules.contains s then some s else none
    | none => none)).dedup

/-- Modelled from the spec: the distinct identifiers among the walked nodes
that match `blocked_operations` — "any identifier matching
`blocked_operations`" (§4.1), whatever node kind carries it, import module
names included. -/
def operationViolations (p : SecurityConfig) (code : List AstNode) : List String :=
  (code.filterMap (fun n => match nodeIdent n with
    | some s => if p.blocked_operations.contains s then some s else none
    | none => none)).dedup

/-- Modelled from the spec: the advisory warnings (§4.1) — a plain variable
name outside `allowed_variables`, or a call to an identifier outside
`allowed_operations`, warns but never rejects. -/
def advisoryWarnings (p : SecurityConfig) (code : List AstNode) : List String :=
  code.filterMap (fun n => match n with
    | .plainVar v =>
      if p.allowed_variables.contains v then none
      else some ("unknown variable: " ++ v)
    | .callOf f =>
      if p.allowed_operations.contains f || p.blocked_operations.contains f then none
      else some ("unknown operation: " ++ f)
    | _ => none)

/-- Does the walked code contain a token present in `blocked_operations` or
`blocked_modules` (the denylists)?  Every node's textual identifier counts,
whatever its kind. -/
def containsBlockedToken (p : SecurityConfig) (code : List AstNode) : Bool :=
  code.any (fun n => match nodeIdent n with
    | some s => p.blocked_modules.contains s || p.blocked_operations.contains s
    | none => false)

/-- Modelled from the spec: `validate` of the missing `code_validator.py`
(§4.1, §8, §9) — a string-membership check of every walked node's
identifier against both denylists: any identifier matching
`blocked_modules` rejects with violation type `"import"`, any identifier
matching `blocked_operations` rejects with violation type `"operation"`,
any lambda literal rejects with violation type `"lambda"`; otherwise it
accepts, returning the sanitized nodes plus the advisory warnings.  This
realises §8's property that any code containing a denylist token is
rejected, and §3's invariant that accepted `sanitized_code` is
denylist-free. -/
def validate (p : SecurityConfig) (code : List AstNode) : Except ValidationError ValidationResult :=
  let mods := moduleViolations p code
  if mods.isEmpty = false then
    .error (.securityViolation "import" mods)
  else
    let ops := operationViolations p code
    if ops.isEmpty = false then
      .error (.securityViolation "operation" ops)
    else if code.contains .lambdaLit then
      .error (.securityViolation "lambda" ["lambda"])
    else
      .ok ⟨code, advisoryWarnings p code⟩

/-! ## Orchestrator (`QueryProcessor.process_question`, `src/query_processor.py`)

The external collaborators (data manager, LLM code generator, validator,
sandbox executor, response generator) are modelled as `Except`-valued
oracles collected in an `Env`; `Except.error` stands for a raised Python
exception. -/

/-- A raised Python exception as the orchestrator distinguishes them: a
`ChatbotError` (carrying `user_message` and `code.name`) or any other
exception (carrying `str(e)`). -/
inductive PyExc where
  | chatbot (user_message : String) (code_name : String)
  | otherExc (msg : String)
deriving Repr, DecidableEq

/-- `GenerationResult` as consumed by the orchestrator: `success`, the
generated `code` string, and the generation latency. -/
structure GenerationResult where
  success : Bool
  code : String
  generation_time_ms : Nat
deriving Repr, DecidableEq

/-- The validator's result as consumed by the orchestrator (string level):
`sanitized_code` and `warnings`. -/
structure OrchValidationResult where
  sanitized_code : String
  warnings : List String
deriving Repr, DecidableEq

/-- `ExecutionResult` as consumed by the orchestrator (`code_executor.py`
interface): `success`, the raw `result` value, an optional `error` message
and the execution latency. -/
structure ExecutionResult where
  success : Bool
  result : PyValue
  error : Option String
  execution_time_ms : Nat
deriving Repr, DecidableEq

/-- `QueryResult` from `src/query_processor.py` (lines 29-58).  Wall-clock
timings are not modelled and are carried as 0. -/
structure QueryResult where
  success : Bool
  question : String
  answer : String
  data : Option PyValue
  data_type : String
  code : String
  execution_time_ms : Nat
  generation_time_ms : Nat
  total_time_ms : Nat
  error : Option String
  error_code : Option String
  warnings : List String
deriving Repr, DecidableEq

/-- The external collaborators of `process_question`, each an oracle whose
`Except.error` models a raised exception:
`df_load` / `schema_load` for `self.data_manager.df` / `.schema`,
`generate` for `code_generator.generate_from_question(question, schema)`,
`validateCode` for `code_validator.validate_code(code)`,
`executeCode` for `code_executor.execute_code(sanitized_code, df)`,
`respond` for `response_generator.generate_response(question, results, code)`. -/
structure Env where
  df_load : Except PyExc Unit
  schema_load : Except PyExc String
  generate : String → String → Except PyExc GenerationResult
  validateCode : String → Except PyExc OrchValidationResult
  executeCode : String → Except PyExc ExecutionResult
  respond : String → String → String → Except PyExc String

/-- Stage events recorded by the instrumented orchestrator, in pipeline
order; `generation_raised` / `execution_raised` mark a collaborator raising
instead of returning. -/
inductive StageEvent where
  | input_validated (ok : Bool)
  | data_loaded (ok : Bool)
  | generation (ok : Bool)
  | generation_raised
  | validation (ok : Bool)
  | execution (ok : Bool)
  | execution_raised
  | classification
  | response (ok : Bool)
deriving Repr, DecidableEq

/-- `QueryProcessor._create_error_result` (`src/query_processor.py` lines
307-328): a failed `QueryResult` with `answer = "Error: " ++ error` and the
dataclass defaults for the remaining fields. -/
def create_error_result (question error error_code code : String) : QueryResult :=
  { success := false
    question := question
    answer := "Error: " ++ error
    data := none
    data_type := "none"
    code := code
    execution_time_ms := 0
    generation_time_ms := 0
    total_time_ms := 0
    error := some error
    error_code := some error_code
    warnings := [] }

/-- The successful `QueryResult` built at `src/query_processor.py` lines
243-254. -/
def mkSuccessResult (q answer : String) (ex : ExecutionResult) (fr : String × String)
    (gen : GenerationResult) (warns : List String) : QueryResult :=
  { success := true
    question := q
    answer := answer
    data := some ex.result
    data_type := fr.2
    code := gen.code
    execution_time_ms := ex.execution_time_ms
    generation_time_ms := gen.generation_time_ms
    total_time_ms := 0
    error := none
    error_code := none
    warnings := warns }

/-- Python truthy-`or` on an optional string: `exec_result.error or
"Execution failed"` treats `None` and `""` as falsy. -/
def pyOrElse (o : Option String) (dflt : String) : String :=
  match o with
  | some s => if s = "" then dflt else s
  | none => dflt

/-- `str(e.user_message if hasattr(e, 'user_message') else e)` for the
validation-stage handler at `src/query_processor.py` line 218. -/
def excUserMessage : PyExc → String
  | .chatbot um _ => um
  | .otherExc m => m

/-- The body of the outer `try` of `process_question` (`src/query_processor.py`
lines 192-254), instrumented with a stage-event trace.  `Except.error`
carries the escaping exception together with the value of the local
`question` variable at the point of the raise (used by the outer handlers).
Mirrors the source stage by stage: input validation (raising
`InputValidationError`, code `INPUT_TOO_LONG`, on a `ValueError` from
`sanitize_input`), data/schema loading, code generation (an unsuccessful
`GenerationResult` short-circuits with `GENERATION_FAILED`), validation
(its handler catches every exception and short-circuits with
`VALIDATION_FAILED`), execution (an unsuccessful result short-circuits with
`EXECUTION_FAILED`; a raise escapes), classification, and response
generation (`_generate_response` catches every exception and falls back to
`"Here are the results:"`). -/
def processBodyT (env : Env) (question : String) :
    Except (PyExc × String) QueryResult × List StageEvent :=
  match sanitize_input question securityConfig.max_input_length with
  | .error m =>
    (.error (.chatbot m "INPUT_TOO_LONG", question), [.input_validated false])
  | .ok q =>
    match env.df_load with
    | .error e => (.error (e, q), [.input_validated true, .data_loaded false])
    | .ok _ =>
      match env.schema_load with
      | .error e => (.error (e, q), [.input_validated true, .data_loaded false])
      | .ok schema =>
        match env.generate q schema with
        | .error e =>
          (.error (e, q),
            [.input_validated true, .data_loaded true, .generation_raised])
        | .ok gen =>
          if gen.success = false then
            (.ok (create_error_result q "Could not generate analysis code" "GENERATION_FAILED" ""),
              [.input_validated true, .data_loaded true, .generation false])
          else
            match env.validateCode gen.code with
            | .error e =>
              (.ok (create_error_result q (excUserMessage e) "VALIDATION_FAILED" ""),
                [.input_validated true, .data_loaded true, .generation true,
                  .validation false])
            | .ok val =>
              match env.executeCode val.sanitized_code with
              | .error e =>
                (.error (e, q),
                  [.input_validated true, .data_loaded true, .generation true,
                    .validation true, .execution_raised])
              | .ok ex =>
                if ex.success = false then
                  (.ok (create_error_result q (pyOrElse ex.error "Execution failed") "EXECUTION_FAILED" gen.code),
                    [.input_validated true, .data_loaded true, .generation true,
                      .validation true, .execution false])
                else
                  match env.respond q (format_result_for_display ex.result).1 gen.code with
                  | .ok answer =>
                    (.ok (mkSuccessResult q answer ex (format_result_for_display ex.result) gen val.warnings),
                      [.input_validated true, .data_loaded true, .generation true,
                        .validation true, .execution true, .classification,
                        .response true])
                  | .error _ =>
                    (.ok (mkSuccessResult q ("Here are the results:\n\n" ++ (format_result_for_display ex.result).1)
                        ex (format_result_for_display ex.result) gen val.warnings),
                      [.input_validated true, .data_loaded true, .generation true,
                        .validation true, .execution true, .classification,
                        .response false])

/-- `process_question` with its outer exception handlers
(`src/query_processor.py` lines 256-275), instrumented: a `ChatbotError`
becomes an error result carrying `e.user_message` and `e.code.name`; any
other exception becomes the generic `UNEXPECTED_ERROR` result. -/
def process_questionT (env : Env) (question : String) : QueryResult × List StageEvent :=
  match processBodyT env question with
  | (.ok r, tr) => (r, tr)
  | (.error (.chatbot um code_name, q), tr) =>
    (create_error_result q um code_name "", tr)
  | (.error (.otherExc _, q), tr) =>
    (create_error_result q "An unexpected error occurred. Please try again." "UNEXPECTED_ERROR" "", tr)

/-- Embeds `QueryProcessor.process_question` (`src/query_processor.py`
lines 174-275): the returned `QueryResult`. -/
def process_question (env : Env) (question : String) : QueryResult :=
  (process_questionT env question).1

/-- Is a stage event a sandboxed-execution attempt (a call of the
executor, whether it returned or raised)? -/
def isExecEvent : StageEvent → Bool
  | .execution _ => true
  | .execution_raised => true
  | _ => false

/-- Is a stage event the classification stage? -/
def isClassifyEvent : StageEvent → Bool
  | .classification => true
  | _ => false

/-! ## Theorems -/

/-- Claim C7, counterexample: the Policy does not consist of five sets of
strings — enumerating the set-valued fields of `SecurityConfig` yields
four, not five. -/
theorem policy_not_five_sets :
    (securityConfigSetFields securityConfig).length ≠ 5 := by
  decide

/-- Claim C7 (amended): the Policy consists of four immutable sets of
strings (allowed operations, blocked operations, blocked modules, allowed
variable names) plus three scalars (max input length 1000, execution
timeout 10 seconds, max memory 512 MB); it is a frozen dataclass
constructed once, and in the embedding every operation takes it as a
read-only value. -/
theorem policy_four_sets_three_scalars :
    (securityConfigSetFields securityConfig).length = 4 ∧
    (securityConfigScalarFields securityConfig).length = 3 ∧
    securityConfig.max_input_length = 1000 ∧
    securityConfig.execution_timeout = 10 ∧
    securityConfig.max_memory_mb = 512 := by
  exact ⟨rfl, rfl, rfl, rfl, rfl⟩

/-- Claim C5, counterexample: a two-dimensional tabular (DataFrame) result
is not tagged `"table"` — the classifier returns `"dataframe"`. -/
theorem dataframe_tag_not_table :
    (format_result_for_display (.dataframe ⟨"h", ["r1"]⟩)).2 ≠ "table" := by
  decide

/-- Claim C5 (amended): for every two-dimensional tabular (DataFrame)
result, the classifier returns the type tag `"dataframe"` (not `"table"`). -/
theorem dataframe_tag (d : DataFrame) :
    (format_result_for_display (.dataframe d)).2 = "dataframe" := by
  by_cases h : 20 < d.rows.length <;> simp [format_result_for_display, h]

/-- Claim C8: the result-classifier mapping is deterministic — equal input
values always give the identical (display text, type tag) pair.  The
embedding is a pure function of the value alone (the source computes only
from the result object, with no locale, time, or ordering inputs), so equal
inputs give equal outputs. -/
theorem format_result_deterministic (r1 r2 : PyValue) (h : r1 = r2) :
    format_result_for_display r1 = format_result_for_display r2 := by
  rw [h]

/-- Witness for `format_result_deterministic` at a concrete value. -/
theorem format_result_deterministic_witness :
    format_result_for_display (.intVal 3) = format_result_for_display (.intVal 3) :=
  format_result_deterministic (.intVal 3) (.intVal 3) rfl

/-- Helper: a pattern is found by `searchPat` in any list that contains it
contiguously. -/
theorem searchPat_finds (pat post pre : List Char) :
    searchPat (fun cs => pat.isPrefixOf cs) (pre ++ (pat ++ post)) = true := by
  induction pre with
  | nil =>
    cases hp : pat ++ post with
    | nil =>
      have : pat = [] := by
        cases pat with
        | nil => rfl
        | cons a l => simp at hp
      simp [searchPat, this]
    | cons c cs =>
      have hpre : pat.isPrefixOf (pat ++ post) = true := by
        rw [List.isPrefixOf_iff_prefix]; exact List.prefix_append pat post
      simp only [List.nil_append, hp] at hpre ⊢
      simp [searchPat, hpre]
  | cons c cs ih =>
    simp [searchPat, ih]

/-- Helper: `strContainsSub` holds whenever the pattern occurs contiguously. -/
theorem strContainsSub_of_append (a t b : String) :
    strContainsSub (a ++ t ++ b) t = true := by
  unfold strContainsSub
  have hdata : (a ++ t ++ b).data = a.data ++ (t.data ++ b.data) := by
    simp [String.data_append, List.append_assoc]
  rw [hdata]
  exact searchPat_finds t.data b.data a.data

/-- Claim C6, counterexample: a chart/figure object result is not tagged
`"figure"` — the classifier returns `"plotly_figure"`. -/
theorem figure_tag_not_figure :
    (format_result_for_display (.figure (some "My Chart") 3)).2 ≠ "figure" := by
  decide

/-- Claim C6 (amended): for every chart/figure result carrying a nonempty
layout title, the classifier's display text is exactly the short
description `"📊 <title> (<n> data series)"` — containing the figure's
title and its number of data series, never the raw structured figure data —
and the returned type tag is `"plotly_figure"` (not `"figure"`). -/
theorem figure_display_description (t : String) (n : Nat) (ht : t ≠ "") :
    (format_result_for_display (.figure (some t) n)).1 =
      "📊 " ++ t ++ " (" ++ toString n ++ " data series)" ∧
    strContainsSub (format_result_for_display (.figure (some t) n)).1 t = true ∧
    strContainsSub (format_result_for_display (.figure (some t) n)).1 (toString n) = true ∧
    (format_result_for_display (.figure (some t) n)).2 = "plotly_figure" := by
  have h1 : (format_result_for_display (.figure (some t) n)).1 =
      "📊 " ++ t ++ " (" ++ toString n ++ " data series)" := by
    simp [format_result_for_display, ht]
  refine ⟨h1, ?_, ?_, by simp [format_result_for_display]⟩
  · rw [h1]
    have := strContainsSub_of_append "📊 " t (" (" ++ toString n ++ " data series)")
    simpa [String.append_assoc] using this
  · rw [h1]
    have := strContainsSub_of_append ("📊 " ++ t ++ " (") (toString n) " data series)"
    simpa [String.append_assoc] using this

/-- Witness for `figure_display_description` at a concrete figure. -/
theorem figure_display_description_witness :
    (format_result_for_display (.figure (some "My Chart") 3)).1 =
      "📊 " ++ "My Chart" ++ " (" ++ toString 3 ++ " data series)" :=
  (figure_display_description "My Chart" 3 (by decide)).1

/-- A 21-item Series (rows rendered `"0"` … `"20"`), used to exercise the
truncation branch of the classifier. -/
def series21 : Series := ⟨(List.range 21).map (fun i => toString i)⟩

/-- A 21-row DataFrame, used to exercise the truncation branch of the
classifier. -/
def dataframe21 : DataFrame := ⟨"col", (List.range 21).map (fun i => toString i)⟩

/-- Claim C4, counterexample: for a Series result with 21 rows the display
text does not state the count in a `"first 10 and last 10 of 21 rows"`
header — the Series branch writes `"items"`, not `"rows"`. -/
theorem series_header_says_items_not_rows :
    strContainsSub (format_result_for_display (.series series21)).1
      ("first 10 and last 10 of 21 rows") = false ∧
    strContainsSub (format_result_for_display (.series series21)).1
      ("first 10 and last 10 of 21 items") = true := by
  exact ⟨by decide, by decide⟩

/-- Claim C4 (amended): for every DataFrame result with row count N > 20
the display text is exactly the first 10 and the last 10 rows under a
`"Showing first 10 and last 10 of N rows:"` header; for every Series
result with N > 20 the same truncation applies but the header reads
`"... of N items:"`; with N ≤ 20 all N rows are shown. -/
theorem display_truncation_first_last_ten (d : DataFrame) (s : Series) :
    (20 < d.rows.length →
      (format_result_for_display (.dataframe d)).1 =
        "Showing first 10 and last 10 of " ++ toString d.rows.length ++ " rows:\n"
          ++ DataFrame.to_string ⟨d.header, d.rows.take 10 ++ d.rows.drop (d.rows.length - 10)⟩) ∧
    (d.rows.length ≤ 20 →
      (format_result_for_display (.dataframe d)).1 = d.to_string) ∧
    (20 < s.rows.length →
      (format_result_for_display (.series s)).1 =
        "Showing first 10 and last 10 of " ++ toString s.rows.length ++ " items:\n"
          ++ Series.to_string ⟨s.rows.take 10 ++ s.rows.drop (s.rows.length - 10)⟩) ∧
    (s.rows.length ≤ 20 →
      (format_result_for_display (.series s)).1 = s.to_string) := by
  refine ⟨fun h => ?_, fun h => ?_, fun h => ?_, fun h => ?_⟩
  · simp [format_result_for_display, h]
  · simp [format_result_for_display, Nat.not_lt.mpr h]
  · simp [format_result_for_display, h]
  · simp [format_result_for_display, Nat.not_lt.mpr h]

/-- Witness for `display_truncation_first_last_ten` at 21-row inputs. -/
theorem display_truncation_first_last_ten_witness :
    (format_result_for_display (.series series21)).1 =
      "Showing first 10 and last 10 of " ++ toString series21.rows.length ++ " items:\n"
        ++ Series.to_string ⟨series21.rows.take 10 ++ series21.rows.drop (series21.rows.length - 10)⟩ :=
  (display_truncation_first_last_ten dataframe21 series21).2.2.1 (by decide)

/-- Helper: when neither the import scan nor the operation scan finds a
violation, the code contains no denylist token. -/
theorem no_violations_no_blocked (p : SecurityConfig) (code : List AstNode)
    (h1 : moduleViolations p code = [])
    (h2 : operationViolations p code = []) :
    containsBlockedToken p code = false := by
  unfold moduleViolations at h1
  unfold operationViolations at h2
  rw [List.dedup_eq_nil, List.filterMap_eq_nil_iff] at h1 h2
  unfold containsBlockedToken
  rw [List.any_eq_false]
  intro n hn
  have e1 := h1 n hn
  have e2 := h2 n hn
  cases n <;> simp_all [nodeIdent]

/-- Claim C1 (spec-modelled validator): every code whose walked nodes
contain a token present in `blocked_operations` or `blocked_modules` is
rejected by `validate` with a `SecurityViolation`, and consequently the
`sanitized_code` of every successful validation contains no unresolved
denylist token. -/
theorem validate_denylist_sound (p : SecurityConfig) (code : List AstNode) :
    (containsBlockedToken p code = true →
      ∃ vt items, validate p code = .error (.securityViolation vt items)) ∧
    (∀ r, validate p code = .ok r → containsBlockedToken p r.sanitized_code = false) := by
  constructor
  · intro hblocked
    unfold validate
    by_cases h1 : (moduleViolations p code).isEmpty = false
    · exact ⟨"import", moduleViolations p code, by simp [h1]⟩
    · have h1' : moduleViolations p code = [] := by
        rw [← List.isEmpty_iff]
        revert h1
        cases (moduleViolations p code).isEmpty <;> simp
      by_cases h2 : (operationViolations p code).isEmpty = false
      · exact ⟨"operation", operationViolations p code, by simp [h1, h2]⟩
      · have h2' : operationViolations p code = [] := by
          rw [← List.isEmpty_iff]
          revert h2
          cases (operationViolations p code).isEmpty <;> simp
        have := no_violations_no_blocked p code h1' h2'
        rw [this] at hblocked
        exact absurd hblocked (by simp)
  · intro r hr
    unfold validate at hr
    by_cases h1 : (moduleViolations p code).isEmpty = false
    · simp [h1] at hr
    · by_cases h2 : (operationViolations p code).isEmpty = false
      · simp [h1, h2] at hr
      · by_cases h3 : AstNode.lambdaLit ∈ code
        · simp [h1, h2, h3] at hr
        · simp [h1, h2, h3] at hr
          have h1' : moduleViolations p code = [] := by
            rw [← List.isEmpty_iff]
            revert h1
            cases (moduleViolations p code).isEmpty <;> simp
          have h2' : operationViolations p code = [] := by
            rw [← List.isEmpty_iff]
            revert h2
            cases (operationViolations p code).isEmpty <;> simp
          subst hr
          exact no_violations_no_blocked p code h1' h2'

/-- Witness for `validate_denylist_sound`: `import os` style code, an
importing of the blocked operation `dill`, a bare reference to the
blocked module `sys`, and a call to the blocked module name `io` are all
rejected with a `SecurityViolation`, while a clean groupby pipeline is
accepted with a denylist-free sanitized code. -/
theorem validate_denylist_sound_witness :
    (∃ vt items, validate securityConfig [AstNode.importOf "os"] =
      .error (.securityViolation vt items)) ∧
    (∃ vt items, validate securityConfig [AstNode.importOf "dill"] =
      .error (.securityViolation vt items)) ∧
    (∃ vt items, validate securityConfig [AstNode.plainVar "sys"] =
      .error (.securityViolation vt items)) ∧
    (∃ vt items, validate securityConfig [AstNode.callOf "io"] =
      .error (.securityViolation vt items)) ∧
    (∀ r, validate securityConfig [AstNode.plainVar "df", AstNode.callOf "groupby"] = .ok r →
      containsBlockedToken securityConfig r.sanitized_code = false) :=
  ⟨(validate_denylist_sound securityConfig [AstNode.importOf "os"]).1 (by decide),
   (validate_denylist_sound securityConfig [AstNode.importOf "dill"]).1 (by decide),
   (validate_denylist_sound securityConfig [AstNode.plainVar "sys"]).1 (by decide),
   (validate_denylist_sound securityConfig [AstNode.callOf "io"]).1 (by decide),
   (validate_denylist_sound securityConfig [AstNode.plainVar "df", AstNode.callOf "groupby"]).2⟩

/-- Helper: the outer exception handlers do not change the stage trace. -/
theorem process_questionT_trace (env : Env) (q : String) :
    (process_questionT env q).2 = (processBodyT env q).2 := by
  unfold process_questionT
  cases hb : processBodyT env q with
  | mk res tr =>
    cases res with
    | ok r => rfl
    | error p =>
      cases p with
      | mk e qq => cases e <;> rfl

/-- Helper: the nine possible stage traces of one `process_question` call. -/
theorem processBodyT_trace_cases (env : Env) (q : String) :
    (processBodyT env q).2 ∈ ([
      [.input_validated false],
      [.input_validated true, .data_loaded false],
      [.input_validated true, .data_loaded true, .generation_raised],
      [.input_validated true, .data_loaded true, .generation false],
      [.input_validated true, .data_loaded true, .generation true, .validation false],
      [.input_validated true, .data_loaded true, .generation true, .validation true,
        .execution_raised],
      [.input_validated true, .data_loaded true, .generation true, .validation true,
        .execution false],
      [.input_validated true, .data_loaded true, .generation true, .validation true,
        .execution true, .classification, .response true],
      [.input_validated true, .data_loaded true, .generation true, .validation true,
        .execution true, .classification, .response false]
    ] : List (List StageEvent)) := by
  unfold processBodyT
  repeat' split
  all_goals simp

/-- Claim C2: in the orchestrator's pipeline a later stage never runs after
an earlier stage has failed — execution never runs after a generation or
validation failure, classification never runs after an execution failure —
and for every query at most one sandboxed execution occurs, with no
automatic retry of a rejected or failed execution. -/
theorem pipeline_stage_order (env : Env) (q : String) :
    ((process_questionT env q).2.countP isExecEvent ≤ 1) ∧
    ((StageEvent.generation false ∈ (process_questionT env q).2 ∨
      StageEvent.generation_raised ∈ (process_questionT env q).2 ∨
      StageEvent.validation false ∈ (process_questionT env q).2) →
        (process_questionT env q).2.countP isExecEvent = 0) ∧
    ((StageEvent.execution false ∈ (process_questionT env q).2 ∨
      StageEvent.execution_raised ∈ (process_questionT env q).2) →
        (process_questionT env q).2.countP isClassifyEvent = 0) := by
  have h := processBodyT_trace_cases env q
  rw [process_questionT_trace]
  simp only [List.mem_cons, List.mem_singleton, List.not_mem_nil, or_false] at h
  rcases h with h | h | h | h | h | h | h | h | h <;> rw [h] <;> decide

/-- Helper: `process_question` as a case analysis on the outcome of the
`try` body — the outer handlers of `src/query_processor.py` lines 256-275. -/
theorem process_question_eq (env : Env) (q : String) :
    process_question env q =
      (match processBodyT env q with
       | (.ok r, _) => r
       | (.error (.chatbot um cn, qq), _) => create_error_result qq um cn ""
       | (.error (.otherExc _, qq), _) =>
         create_error_result qq "An unexpected error occurred. Please try again." "UNEXPECTED_ERROR" "") := by
  unfold process_question process_questionT
  cases hb : processBodyT env q with
  | mk res tr =>
    cases res with
    | ok r => rfl
    | error p =>
      cases p with
      | mk e qq => cases e <;> rfl

/-- Helper: every `QueryResult` returned normally by the `try` body either
succeeds or carries an error code. -/
theorem processBodyT_ok_inv (env : Env) (q : String) (r : QueryResult) (tr : List StageEvent)
    (h : processBodyT env q = (.ok r, tr)) :
    r.success = false → r.error_code.isSome = true := by
  unfold processBodyT at h
  repeat' split at h
  all_goals
    first
    | (simp only [Prod.mk.injEq, Except.ok.injEq] at h
       obtain ⟨h1, h2⟩ := h
       subst h1
       intro hs
       simp_all [create_error_result, mkSuccessResult])
    | simp at h

/-- Claim C3: `process_question` never raises — it is a total function into
`QueryResult`; every failure carries a specific error code, a
`ChatbotError` escaping the body is converted into a `success=false`
result carrying its user-safe message and its code name, and any other
exception is converted into the generic user-safe message with error code
`UNEXPECTED_ERROR`. -/
theorem process_question_error_conversion (env : Env) (q : String) :
    ((process_question env q).success = false → (process_question env q).error_code.isSome = true) ∧
    (∀ um cn qq tr, processBodyT env q = (.error (.chatbot um cn, qq), tr) →
      (process_question env q).success = false ∧
      (process_question env q).error = some um ∧
      (process_question env q).error_code = some cn) ∧
    (∀ m qq tr, processBodyT env q = (.error (.otherExc m, qq), tr) →
      (process_question env q).success = false ∧
      (process_question env q).error = some "An unexpected error occurred. Please try again." ∧
      (process_question env q).error_code = some "UNEXPECTED_ERROR") := by
  refine ⟨?_, ?_, ?_⟩
  · intro hs
    rw [process_question_eq] at hs ⊢
    rcases hb : processBodyT env q with ⟨res, tr⟩
    rw [hb] at hs
    cases res with
    | ok r => exact processBodyT_ok_inv env q r tr hb hs
    | error p =>
      obtain ⟨e, qq⟩ := p
      cases e with
      | chatbot um cn => simp [create_error_result]
      | otherExc m => simp [create_error_result]
  · intro um cn qq tr hb
    rw [process_question_eq, hb]
    exact ⟨rfl, rfl, rfl⟩
  · intro m qq tr hb
    rw [process_question_eq, hb]
    exact ⟨rfl, rfl, rfl⟩

/-- Claim C9: every in-length question matching one of the hardcoded
injection patterns is rejected by `sanitize_input` with a `ValueError`, and
`process_question` then reports `success=false` with error code
`INPUT_TOO_LONG` — the same code an over-long input receives. -/
theorem injection_pattern_rejection (env : Env) (q : String)
    (hlen : q.length ≤ 1000) (hpat : hasDangerousPattern (pyStrip q) = true) :
    sanitize_input q securityConfig.max_input_length =
      .error "Input contains potentially unsafe patterns." ∧
    (process_question env q).success = false ∧
    (process_question env q).error = some "Input contains potentially unsafe patterns." ∧
    (process_question env q).error_code = some "INPUT_TOO_LONG" ∧
    (∀ q2 : String, 1000 < q2.length →
      (process_question env q2).success = false ∧
      (process_question env q2).error_code = some "INPUT_TOO_LONG") := by
  have hmax : securityConfig.max_input_length = 1000 := rfl
  have hsan : sanitize_input q securityConfig.max_input_length =
      .error "Input contains potentially unsafe patterns." := by
    unfold sanitize_input
    rw [hmax]
    simp [Nat.not_lt.mpr hlen, hpat]
  have hbody : processBodyT env q =
      (.error (.chatbot "Input contains potentially unsafe patterns." "INPUT_TOO_LONG", q),
        [.input_validated false]) := by
    unfold processBodyT
    rw [hsan]
  refine ⟨hsan, ?_, ?_, ?_, ?_⟩
  · rw [process_question_eq, hbody]; rfl
  · rw [process_question_eq, hbody]; rfl
  · rw [process_question_eq, hbody]; rfl
  · intro q2 h2
    have hsan2 : sanitize_input q2 securityConfig.max_input_length =
        .error ("Input too long. Maximum " ++ toString (1000 : Nat) ++ " characters allowed.") := by
      unfold sanitize_input
      rw [hmax]
      simp [h2]
    have hbody2 : processBodyT env q2 =
        (.error (.chatbot ("Input too long. Maximum " ++ toString (1000 : Nat) ++ " characters allowed.")
            "INPUT_TOO_LONG", q2),
          [.input_validated false]) := by
      unfold processBodyT
      rw [hsan2]
    rw [process_question_eq, hbody2]
    exact ⟨rfl, rfl⟩

/-- Claim C10: if the natural-language response generator raises any
exception after a successful execution, `process_question` still returns
`success=true` with the fallback answer `"Here are the results:"`, a blank
line, and the classifier's formatted result text. -/
theorem response_fallback_on_generator_failure
    (env : Env) (q q' sch : String) (gen : GenerationResult)
    (val : OrchValidationResult) (ex : ExecutionResult) (em : PyExc)
    (h1 : sanitize_input q securityConfig.max_input_length = .ok q')
    (h2 : env.df_load = .ok ())
    (h3 : env.schema_load = .ok sch)
    (h4 : env.generate q' sch = .ok gen)
    (h5 : gen.success = true)
    (h6 : env.validateCode gen.code = .ok val)
    (h7 : env.executeCode val.sanitized_code = .ok ex)
    (h8 : ex.success = true)
    (h9 : env.respond q' (format_result_for_display ex.result).1 gen.code = .error em) :
    (process_question env q).success = true ∧
    (process_question env q).answer =
      "Here are the results:\n\n" ++ (format_result_for_display ex.result).1 := by
  rw [process_question_eq]
  unfold processBodyT
  simp only [h1, h2, h3, h4, h5, h6, h7, h8, h9]
  simp [mkSuccessResult]

/-- A generation result carrying a simple pandas pipeline. -/
def okGen : GenerationResult := ⟨true, "result = df.head()", 0⟩

/-- A successful execution result returning the scalar 3. -/
def exOk : ExecutionResult := ⟨true, .intVal 3, none, 0⟩

/-- An environment whose validator rejects every code string with a
`CodeValidationError`. -/
def envValFail : Env :=
  { df_load := .ok ()
    schema_load := .ok "schema"
    generate := fun _ _ => .ok okGen
    validateCode := fun _ => .error (.chatbot "Security validation failed" "VALIDATION_FAILED")
    executeCode := fun _ => .ok exOk
    respond := fun _ _ _ => .ok "answer" }

/-- An environment whose data loading raises an unclassified exception. -/
def envLoadFail : Env :=
  { df_load := .error (.otherExc "boom")
    schema_load := .ok "schema"
    generate := fun _ _ => .ok okGen
    validateCode := fun c => .ok ⟨c, []⟩
    executeCode := fun _ => .ok exOk
    respond := fun _ _ _ => .ok "answer" }

/-- An environment where every stage succeeds except the response
generator, which raises. -/
def envRespFail : Env :=
  { df_load := .ok ()
    schema_load := .ok "schema"
    generate := fun _ _ => .ok okGen
    validateCode := fun c => .ok ⟨c, []⟩
    executeCode := fun _ => .ok exOk
    respond := fun _ _ _ => .error (.otherExc "llm down") }

/-- Witness for `pipeline_stage_order`: with a failing validator, no
sandboxed execution occurs. -/
theorem pipeline_stage_order_witness :
    (process_questionT envValFail "hi").2.countP isExecEvent = 0 :=
  (pipeline_stage_order envValFail "hi").2.1 (Or.inr (Or.inr (by decide)))

/-- Witness for `process_question_error_conversion`: a raised unclassified
exception surfaces as `UNEXPECTED_ERROR`. -/
theorem process_question_error_conversion_witness :
    (process_question envLoadFail "hi").error_code = some "UNEXPECTED_ERROR" :=
  ((process_question_error_conversion envLoadFail "hi").2.2 "boom" "hi"
    [.input_validated true, .data_loaded false] rfl).2.2

/-- Witness for `injection_pattern_rejection` at the concrete question
`eval(x)`. -/
theorem injection_pattern_rejection_witness :
    (process_question envValFail "eval(x)").success = false ∧
    (process_question envValFail "eval(x)").error_code = some "INPUT_TOO_LONG" :=
  ⟨(injection_pattern_rejection envValFail "eval(x)" (by decide) (by decide)).2.1,
   (injection_pattern_rejection envValFail "eval(x)" (by decide) (by decide)).2.2.2.1⟩

/-- Witness for `response_fallback_on_generator_failure` at a concrete
environment. -/
theorem response_fallback_witness :
    (process_question envRespFail "hi").success = true ∧
    (process_question envRespFail "hi").answer =
      "Here are the results:\n\n" ++ (format_result_for_display exOk.result).1 :=
  response_fallback_on_generator_failure envRespFail "hi" "hi" "schema" okGen
    ⟨okGen.code, []⟩ exOk (.otherExc "llm down") rfl rfl rfl rfl rfl rfl rfl rfl rfl

end EduChatbot
